import Mathlib

/-!
Shallow embedding of the movie-app repository (two screens).

Source files:
- `src/app/page.tsx` — the search screen (`Home` component, `handleSearch`).
- `src/unnamed/part_000` — the detail screen (`MovieDetailPage` component,
  `fetchMovieDetail` inside its effect, and the render).

Modelling conventions:
- React component state becomes an explicit state record; each handler is a
  function from the prior state (plus the network outcome) to the new state,
  the list of HTTP requests issued, and the log entries emitted.
- React batches state updates that happen in one synchronous stretch of a
  handler (including the stretch after an `await` resumes), so the observable
  points of a handler are the states at its suspension points and at its end.
  A handler therefore also returns the list of observable snapshots, one per
  batch boundary.
- Fallible network calls are modelled by an outcome argument: either a parsed
  response (with its HTTP `ok` flag) or a thrown error.
- JS numbers that the code only tests for truthiness or renders are modelled
  as `Nat` (runtime) and `Rat` (vote average); JS truthiness of a number is
  `≠ 0`.
-/

namespace MovieApp

/-- Movie summary, as consumed by the search screen (`interface Movie` in
`src/app/page.tsx`). -/
structure Movie where
  id : Int
  title : String
  release_date : String
  poster_path : Option String
deriving DecidableEq, Repr

/-- Genre entry of a movie detail (`genres: { id: number; name: string }[]`). -/
structure Genre where
  id : Int
  name : String
deriving DecidableEq, Repr

/-- Movie detail, as consumed by the detail screen (`interface MovieDetail` in
`src/unnamed/part_000`). -/
structure MovieDetail where
  id : Int
  title : String
  overview : String
  release_date : String
  poster_path : Option String
  backdrop_path : Option String
  genres : List Genre
  runtime : Nat
  vote_average : Rat
deriving DecidableEq, Repr

/-- One cast entry of the credits response (`interface Credits` member). -/
structure CastMember where
  cast_id : Int
  character : String
  name : String
  profile_path : Option String
deriving DecidableEq, Repr

/-- Credits response body (`interface Credits` in `src/unnamed/part_000`). -/
structure Credits where
  cast : List CastMember
deriving DecidableEq, Repr

/-! ### URL encoding

`handleSearch` builds its request URL with the JS builtin
`encodeURIComponent(query)`.  We embed that builtin: every character outside
the unreserved set `A-Z a-z 0-9 - _ . ! ~ * ' ( )` is replaced by the
percent-encoding of its UTF-8 bytes, upper-case hex. -/

/-- Characters `encodeURIComponent` leaves unescaped. -/
def isUnescapedURIChar (c : Char) : Bool :=
  (65 ≤ c.toNat && c.toNat ≤ 90) ||        -- A-Z
  (97 ≤ c.toNat && c.toNat ≤ 122) ||       -- a-z
  (48 ≤ c.toNat && c.toNat ≤ 57) ||        -- 0-9
  c.toNat == 45 || c.toNat == 95 || c.toNat == 46 || c.toNat == 33 ||
  c.toNat == 126 || c.toNat == 42 || c.toNat == 39 ||
  c.toNat == 40 || c.toNat == 41

/-- Upper-case hex digit of a value below 16. -/
def hexDigitUpper (n : Nat) : Char :=
  if n < 10 then Char.ofNat (48 + n) else Char.ofNat (55 + n)

/-- UTF-8 bytes of a Unicode code point, as numbers below 256. -/
def utf8Bytes (n : Nat) : List Nat :=
  if n < 128 then [n]
  else if n < 2048 then [192 + n / 64, 128 + n % 64]
  else if n < 65536 then [224 + n / 4096, 128 + (n / 64) % 64, 128 + n % 64]
  else [240 + n / 262144, 128 + (n / 4096) % 64, 128 + (n / 64) % 64,
        128 + n % 64]

/-- `%XY` percent-encoding of one byte. -/
def percentEncodeByte (b : Nat) : String :=
  String.mk [Char.ofNat 37, hexDigitUpper (b / 16), hexDigitUpper (b % 16)]

/-- Embedding of the JS builtin `encodeURIComponent`. -/
def encodeURIComponent (s : String) : String :=
  String.join (s.data.map fun c =>
    if isUnescapedURIChar c then String.singleton c
    else String.join ((utf8Bytes c.toNat).map percentEncodeByte))

/-! ### Search screen (`src/app/page.tsx`) -/

/-- State of the `Home` component: `query`, `movies`, `loading`
(`useState` hooks in `src/app/page.tsx`). -/
structure SearchState where
  query : String
  movies : List Movie
  loading : Bool
deriving DecidableEq, Repr

/-- Initial state of the `Home` component:
`useState("")`, `useState<Movie[]>([])`, `useState(false)`. -/
def initialSearchState : SearchState :=
  { query := "", movies := [], loading := false }

/-- An HTTP request the search screen can issue.  The search URL carries the
query already URL-encoded (`query=${encodeURIComponent(query)}`). -/
inductive SearchRequest where
  | search (encodedQuery : String)
deriving DecidableEq, Repr

/-- Parsed body of the search response.  `results` is `none` when the field is
absent from the JSON (the code then falls back: `data.results || []`). -/
structure SearchBody where
  results : Option (List Movie)
deriving DecidableEq, Repr

/-- Outcome of the search screen's single `fetch` + `response.json()`:
either a parsed body, or a throw anywhere in the `try` block. -/
inductive SearchOutcome where
  | success (body : SearchBody)
  | failure
deriving DecidableEq, Repr

/-- Everything one run of `handleSearch` produces: the requests it issued, the
observable state snapshots (one per React batch boundary), the console log
entries, and the state it leaves behind. -/
structure HandleSearchResult where
  requests : List SearchRequest
  snapshots : List SearchState
  logs : List String
  final : SearchState
deriving DecidableEq, Repr

/-- Embedding of `handleSearch` (`src/app/page.tsx` lines 22–43).

- `if (!query) return;` — empty query is a no-op.
- Otherwise `setLoading(true); setMovies([])` run synchronously before the
  handler suspends on `fetch`: one observable snapshot.
- On success, `setMovies(data.results || [])` and the `finally`
  `setLoading(false)` run in the same resumed stretch: one snapshot.
- On a throw, the `catch` logs `"Error searching movies:"` and runs
  `setMovies([])`, then `finally` runs `setLoading(false)`: one snapshot. -/
def handleSearch (s : SearchState) (out : SearchOutcome) : HandleSearchResult :=
  if s.query = "" then { requests := [], snapshots := [], logs := [], final := s }
  else
    let s1 : SearchState := { s with loading := true, movies := [] }
    let reqs := [SearchRequest.search (encodeURIComponent s.query)]
    match out with
    | .success body =>
        let s2 : SearchState :=
          { s1 with movies := body.results.getD [], loading := false }
        { requests := reqs, snapshots := [s1, s2], logs := [], final := s2 }
    | .failure =>
        let s2 : SearchState := { s1 with movies := [], loading := false }
        { requests := reqs, snapshots := [s1, s2],
          logs := ["Error searching movies:"], final := s2 }

/-- What the body of the search screen renders, beyond the always-present
header and form (`src/app/page.tsx` conditional blocks). -/
inductive SearchRender where
  | loadingView
  | resultsGrid (movies : List Movie)
  | noResults
  | idle
deriving DecidableEq, Repr

/-- Embedding of the search screen's conditional rendering:
`loading && ...` (spinner and skeleton), `!loading && movies.length > 0 && ...`
(results grid), `!loading && query && movies.length === 0 && ...`
("No movies found."). -/
def searchRender (s : SearchState) : SearchRender :=
  if s.loading then .loadingView
  else if 0 < s.movies.length then .resultsGrid s.movies
  else if s.query = "" then .idle
  else .noResults

/-- A user-visible event on the search screen: typing in the input
(`onChange` sets the query) or submitting the form with a given network
outcome. -/
inductive SearchEvent where
  | setQuery (q : String)
  | submit (out : SearchOutcome)
deriving DecidableEq, Repr

/-- One event step: the resulting state, and the observable snapshots the
event produced. -/
def stepSearch (s : SearchState) (e : SearchEvent) :
    SearchState × List SearchState :=
  match e with
  | .setQuery q =>
      let s1 : SearchState := { s with query := q }
      (s1, [s1])
  | .submit out =>
      let r := handleSearch s out
      (r.final, r.snapshots)

/-- Run a sequence of events from a state, collecting every observable state
(the starting state included). -/
def runSearch (s : SearchState) : List SearchEvent → SearchState × List SearchState
  | [] => (s, [s])
  | e :: es =>
      let p := stepSearch s e
      let q := runSearch p.1 es
      (q.1, p.2 ++ q.2)

/-! ### Detail screen (`src/unnamed/part_000`) -/

/-- State of the `MovieDetailPage` component: `movie`, `credits`, `loading`,
`error` (`useState` hooks in `src/unnamed/part_000`). -/
structure DetailState where
  movie : Option MovieDetail
  credits : Option Credits
  loading : Bool
  error : Option String
deriving DecidableEq, Repr

/-- Initial state of `MovieDetailPage`: `useState<MovieDetail | null>(null)`,
`useState<Credits | null>(null)`, `useState(true)`, `useState<string | null>(null)`. -/
def initialDetailState : DetailState :=
  { movie := none, credits := none, loading := true, error := none }

/-- An HTTP request the detail screen can issue, keyed by the route's movie
identifier (a path segment, hence a string). -/
inductive DetailRequest where
  | movieById (id : String)
  | creditsById (id : String)
deriving DecidableEq, Repr

/-- A settled HTTP response as the code consumes it: the `ok` flag (HTTP
status in the 2xx range) and the body as `res.json()` would parse it.  The
code reads the body only after checking `ok`. -/
structure HttpResponse (β : Type) where
  ok : Bool
  body : β
deriving DecidableEq, Repr

/-- Outcome of `Promise.all([fetch(movie...), fetch(credits...)])` followed by
the two `json()` calls: either both responses settled and parsed, or something
threw (a network rejection or a parse error), carrying `err.message` when the
thrown value was an `Error`. -/
inductive DetailOutcome where
  | responses (movieRes : HttpResponse MovieDetail) (creditsRes : HttpResponse Credits)
  | reject (errMsg : Option String)
deriving DecidableEq, Repr

/-- Embedding of `fetchMovieDetail` (`src/unnamed/part_000` lines 45–81).

- `setLoading(true); setError(null)` open the attempt.
- Both requests are issued together (`Promise.all`).
- `if (!movieRes.ok) throw new Error("Failed to fetch movie details.")`,
  then `if (!creditsRes.ok) throw new Error("Failed to fetch credits.")`.
- On success, `setMovie(movieData); setCredits(creditsData)` store the parsed
  bodies unchanged.
- The `catch` stores `err.message` when the thrown value is an `Error`, else
  `"An unexpected error occurred."`; the `finally` runs `setLoading(false)`.

Returns the state after the attempt and the requests issued. -/
def fetchMovieDetail (id : String) (s : DetailState) (out : DetailOutcome) :
    DetailState × List DetailRequest :=
  let s1 : DetailState := { s with loading := true, error := none }
  let reqs := [DetailRequest.movieById id, DetailRequest.creditsById id]
  match out with
  | .responses mRes cRes =>
      if !mRes.ok then
        ({ s1 with error := some "Failed to fetch movie details.", loading := false },
         reqs)
      else if !cRes.ok then
        ({ s1 with error := some "Failed to fetch credits.", loading := false },
         reqs)
      else
        ({ s1 with movie := some mRes.body, credits := some cRes.body,
                   loading := false },
         reqs)
  | .reject errMsg =>
      ({ s1 with error := some (errMsg.getD "An unexpected error occurred."),
                 loading := false },
       reqs)

/-- Embedding of the detail screen's effect (`useEffect` keyed by `[id]`):
`if (!id) return;` guards the fetch; otherwise each trigger runs
`fetchMovieDetail` afresh. -/
def detailEffect (id : String) (s : DetailState) (out : DetailOutcome) :
    DetailState × List DetailRequest :=
  if id = "" then (s, []) else fetchMovieDetail id s out

/-- What the detail screen renders, as a function of its state. -/
inductive DetailRender where
  | spinner
  | errorView (msg : String)
  | blank
  | detailView (movie : MovieDetail) (credits : Option Credits)
deriving DecidableEq, Repr

/-- Embedding of `MovieDetailPage`'s early returns and main return
(`src/unnamed/part_000` lines 86 onward): `if (loading)` spinner;
`if (error)` the error message with the Go Back button; `if (!movie)` null;
otherwise the full detail view (which also consumes `credits`). -/
def renderDetail (s : DetailState) : DetailRender :=
  if s.loading then .spinner
  else
    match s.error with
    | some e => .errorView e
    | none =>
        match s.movie with
        | none => .blank
        | some m => .detailView m s.credits

/-- Embedding of the runtime line of the detail view:
`movie.runtime ? `${movie.runtime} minutes` : "N/A"` — a JS number is truthy
iff it is nonzero. -/
def runtimeText (runtime : Nat) : String :=
  if runtime ≠ 0 then toString runtime ++ " minutes" else "N/A"

/-- Embedding of the rating line of the detail view:
`movie.vote_average ? `${movie.vote_average}/10` : "N/A"`. -/
def ratingText (v : Rat) : String :=
  if v ≠ 0 then toString v ++ "/10" else "N/A"

/-- Embedding of the cast section: rendered only when
`credits && credits.cast.length > 0`, and then it shows
`credits.cast.slice(0, 10)`.  Returns the list of cast entries shown, or
`none` when the section is omitted. -/
def castSection (credits : Option Credits) : Option (List CastMember) :=
  match credits with
  | none => none
  | some c => if 0 < c.cast.length then some (c.cast.take 10) else none

/-! ### Concrete fixtures (for witnesses) -/

/-- Search-result fixture from the spec's "Matrix" scenario. -/
def sampleSummary1 : Movie :=
  { id := 1, title := "The Matrix", release_date := "1999-03-31",
    poster_path := some "/a.jpg" }

/-- Second search-result fixture from the spec's "Matrix" scenario. -/
def sampleSummary2 : Movie :=
  { id := 2, title := "Matrix Reloaded", release_date := "2003-05-07",
    poster_path := none }

/-- Movie-detail fixture (id 603). -/
def sampleDetail : MovieDetail :=
  { id := 603, title := "The Matrix", overview := "A hacker learns the truth.",
    release_date := "1999-03-31", poster_path := some "/p.jpg",
    backdrop_path := some "/b.jpg", genres := [{ id := 28, name := "Action" }],
    runtime := 136, vote_average := 81 / 10 }

/-- A second movie-detail fixture, to exercise state replacement. -/
def sampleDetail2 : MovieDetail :=
  { sampleDetail with
    overview := "Refetched overview.", runtime := 138, vote_average := 8 }

/-- Cast-member fixture. -/
def sampleCastMember : CastMember :=
  { cast_id := 5, character := "Neo", name := "Keanu Reeves",
    profile_path := some "/k.jpg" }

/-- Credits fixture. -/
def sampleCredits : Credits := { cast := [sampleCastMember] }

/-- A second credits fixture, to exercise state replacement. -/
def sampleCredits2 : Credits :=
  { cast := [{ cast_id := 6, character := "Trinity", name := "Carrie-Anne Moss",
               profile_path := none }] }

/-- Search state with query "The Matrix" typed and nothing loaded yet. -/
def matrixQueryState : SearchState :=
  { query := "The Matrix", movies := [], loading := false }

/-- Search state with query "The Matrix" and prior results on screen. -/
def matrixQueryWithResults : SearchState :=
  { query := "The Matrix", movies := [sampleSummary1], loading := false }

/-- Search state with an empty query but prior results on screen. -/
def emptyQueryWithResults : SearchState :=
  { query := "", movies := [sampleSummary1], loading := false }

/-- Search response body from the spec's "Matrix" scenario. -/
def matrixBody : SearchBody :=
  { results := some [sampleSummary1, sampleSummary2] }

/-! ### Helper lemmas for the search-screen trace invariant -/

/-- Every observable snapshot a `handleSearch` run emits satisfies the
loading/results invariant. -/
theorem handleSearch_snapshots_inv (s : SearchState) (out : SearchOutcome) :
    ∀ t ∈ (handleSearch s out).snapshots, t.loading = true → t.movies = [] := by
  by_cases hq : s.query = ""
  · simp [handleSearch, hq]
  · cases out <;> simp [handleSearch, hq]

/-- The state a `handleSearch` run leaves behind satisfies the invariant
whenever the state it started from did. -/
theorem handleSearch_final_inv (s : SearchState) (out : SearchOutcome)
    (h : s.loading = true → s.movies = []) :
    (handleSearch s out).final.loading = true →
    (handleSearch s out).final.movies = [] := by
  by_cases hq : s.query = ""
  · simpa [handleSearch, hq] using h
  · cases out <;> simp [handleSearch, hq]

/-- The invariant holds along every trace of search-screen events, and is
carried to the end state. -/
theorem runSearch_inv (es : List SearchEvent) (s : SearchState)
    (h : s.loading = true → s.movies = []) :
    (∀ t ∈ (runSearch s es).2, t.loading = true → t.movies = []) ∧
    ((runSearch s es).1.loading = true → (runSearch s es).1.movies = []) := by
  induction es generalizing s with
  | nil =>
      refine ⟨?_, by simpa [runSearch] using h⟩
      intro t ht
      simp [runSearch] at ht
      subst ht
      exact h
  | cons e es ih =>
      cases e with
      | setQuery q =>
          have h1 : ({ s with query := q } : SearchState).loading = true →
              ({ s with query := q } : SearchState).movies = [] := h
          obtain ⟨ihs, ihf⟩ := ih { s with query := q } h1
          refine ⟨?_, by simpa [runSearch, stepSearch] using ihf⟩
          intro t ht
          simp [runSearch, stepSearch] at ht
          rcases ht with rfl | ht
          · exact h1
          · exact ihs t ht
      | submit out =>
          have hf := handleSearch_final_inv s out h
          obtain ⟨ihs, ihf⟩ := ih (handleSearch s out).final hf
          refine ⟨?_, by simpa [runSearch, stepSearch] using ihf⟩
          intro t ht
          simp [runSearch, stepSearch] at ht
          rcases ht with ht | ht
          · exact handleSearch_snapshots_inv s out t ht
          · exact ihs t ht

/-! ### Claim theorems: search screen -/

/-- C3: for every non-empty query string, submitting the search form issues
exactly one request to the search endpoint with the query URL-encoded, and on
a successful response the result list is set to the response body's `results`
array (or the empty list when that array is absent), with loading cleared
afterwards. -/
theorem handleSearch_success_spec (s : SearchState) (body : SearchBody)
    (h : s.query ≠ "") :
    (handleSearch s (.success body)).requests =
      [SearchRequest.search (encodeURIComponent s.query)] ∧
    (handleSearch s (.success body)).requests.length = 1 ∧
    (handleSearch s (.success body)).final.movies = body.results.getD [] ∧
    (handleSearch s (.success body)).final.loading = false := by
  simp [handleSearch, h]

/-- Witness for C3: the spec's "Matrix" scenario, with the URL encoding
evaluated concretely. -/
theorem handleSearch_success_spec_witness :
    matrixQueryState.query ≠ "" ∧
    ((handleSearch matrixQueryState (.success matrixBody)).requests =
        [SearchRequest.search (encodeURIComponent "The Matrix")] ∧
      (handleSearch matrixQueryState (.success matrixBody)).requests.length = 1 ∧
      (handleSearch matrixQueryState (.success matrixBody)).final.movies =
        [sampleSummary1, sampleSummary2] ∧
      (handleSearch matrixQueryState (.success matrixBody)).final.loading = false) ∧
    encodeURIComponent "The Matrix" = "The%20Matrix" :=
  ⟨by decide,
   handleSearch_success_spec matrixQueryState matrixBody (by decide),
   by decide⟩

/-- C5: the search screen's result list and loading flag are never
simultaneously non-empty and true at any observable point of any event trace
from the initial state; every submission's first observable snapshot has the
prior results cleared (with loading set); and any snapshot with a non-empty
result list has loading already cleared. -/
theorem search_loading_results_invariant :
    (∀ (es : List SearchEvent) (t : SearchState),
        t ∈ (runSearch initialSearchState es).2 →
        t.loading = true → t.movies = []) ∧
    (∀ (s : SearchState) (out : SearchOutcome),
        (handleSearch s out).requests ≠ [] →
        (handleSearch s out).snapshots.head? =
          some { query := s.query, movies := [], loading := true }) ∧
    (∀ (s : SearchState) (out : SearchOutcome) (t : SearchState),
        t ∈ (handleSearch s out).snapshots →
        t.movies ≠ [] → t.loading = false) := by
  refine ⟨?_, ?_, ?_⟩
  · intro es t ht
    exact (runSearch_inv es initialSearchState (fun _ => rfl)).1 t ht
  · intro s out hreq
    by_cases hq : s.query = ""
    · simp [handleSearch, hq] at hreq
    · cases out <;> simp [handleSearch, hq]
  · intro s out t ht hm
    rcases hl : t.loading with _ | _
    · rfl
    · exact absurd (handleSearch_snapshots_inv s out t ht hl) hm

/-- Witness for C5: a concrete trace (type "The Matrix", submit with a failing
request) whose in-flight snapshot has loading set and an empty result list. -/
theorem search_loading_results_invariant_witness :
    (({ query := "The Matrix", movies := [], loading := true } : SearchState) ∈
      (runSearch initialSearchState
        [SearchEvent.setQuery "The Matrix", SearchEvent.submit .failure]).2) ∧
    ({ query := "The Matrix", movies := [], loading := true } : SearchState).movies = [] :=
  ⟨by decide,
   search_loading_results_invariant.1
     [SearchEvent.setQuery "The Matrix", SearchEvent.submit .failure]
     { query := "The Matrix", movies := [], loading := true }
     (by decide) rfl⟩

/-- C7: for every search submission whose request fails, the failure is
logged, the result list is set to the empty list, loading is cleared, exactly
the one original request was issued (no retry), and the rendered screen shows
the no-results text rather than any error text. -/
theorem handleSearch_failure_spec (s : SearchState) (h : s.query ≠ "") :
    (handleSearch s .failure).final.movies = [] ∧
    (handleSearch s .failure).final.loading = false ∧
    (handleSearch s .failure).logs = ["Error searching movies:"] ∧
    (handleSearch s .failure).requests.length = 1 ∧
    searchRender (handleSearch s .failure).final = .noResults := by
  simp [handleSearch, searchRender, h]

/-- Witness for C7 at the query "The Matrix", starting from a state that had
prior results. -/
theorem handleSearch_failure_spec_witness :
    matrixQueryWithResults.query ≠ "" ∧
    ((handleSearch matrixQueryWithResults .failure).final.movies = [] ∧
      (handleSearch matrixQueryWithResults .failure).final.loading = false ∧
      (handleSearch matrixQueryWithResults .failure).logs =
        ["Error searching movies:"] ∧
      (handleSearch matrixQueryWithResults .failure).requests.length = 1 ∧
      searchRender (handleSearch matrixQueryWithResults .failure).final =
        .noResults) :=
  ⟨by decide, handleSearch_failure_spec matrixQueryWithResults (by decide)⟩

/-- C8: submitting the search form with an empty query string issues no
request, emits no snapshot and no log, and leaves the whole search state
(query, results, loading) unchanged. -/
theorem handleSearch_empty_query_noop (s : SearchState) (out : SearchOutcome)
    (h : s.query = "") :
    handleSearch s out =
      { requests := [], snapshots := [], logs := [], final := s } := by
  simp [handleSearch, h]

/-- Witness for C8: an empty-query submission from a state holding prior
results leaves that state intact and issues nothing. -/
theorem handleSearch_empty_query_noop_witness :
    handleSearch emptyQueryWithResults .failure =
      { requests := [], snapshots := [], logs := [],
        final := emptyQueryWithResults } :=
  handleSearch_empty_query_noop emptyQueryWithResults .failure rfl

/-! ### Claim theorems: detail screen -/

/-- C1: whenever either detail response has a non-success HTTP status, the
fetch sets the error to "Failed to fetch movie details." if the movie response
failed, else "Failed to fetch credits." if the credits response failed, leaves
the movie and credits state unchanged, clears loading, and the screen renders
the corresponding error view. -/
theorem fetchMovieDetail_http_error_spec (id : String) (s : DetailState)
    (mRes : HttpResponse MovieDetail) (cRes : HttpResponse Credits) :
    (mRes.ok = false →
      (fetchMovieDetail id s (.responses mRes cRes)).1 =
        { movie := s.movie, credits := s.credits, loading := false,
          error := some "Failed to fetch movie details." } ∧
      renderDetail (fetchMovieDetail id s (.responses mRes cRes)).1 =
        .errorView "Failed to fetch movie details.") ∧
    (mRes.ok = true → cRes.ok = false →
      (fetchMovieDetail id s (.responses mRes cRes)).1 =
        { movie := s.movie, credits := s.credits, loading := false,
          error := some "Failed to fetch credits." } ∧
      renderDetail (fetchMovieDetail id s (.responses mRes cRes)).1 =
        .errorView "Failed to fetch credits.") := by
  constructor
  · intro hm
    simp [fetchMovieDetail, renderDetail, hm]
  · intro hm hc
    simp [fetchMovieDetail, renderDetail, hm, hc]

/-- Witness for C1: the spec's id=603 scenario — fresh mount, the movie
request succeeds, the credits request returns HTTP 404; the screen shows
"Failed to fetch credits." and movie/credits are both unset. -/
theorem fetchMovieDetail_http_error_spec_witness :
    ((HttpResponse.mk true sampleDetail).ok = true ∧
      (HttpResponse.mk false sampleCredits).ok = false) ∧
    ((fetchMovieDetail "603" initialDetailState
        (.responses ⟨true, sampleDetail⟩ ⟨false, sampleCredits⟩)).1 =
      { movie := none, credits := none, loading := false,
        error := some "Failed to fetch credits." } ∧
     renderDetail (fetchMovieDetail "603" initialDetailState
        (.responses ⟨true, sampleDetail⟩ ⟨false, sampleCredits⟩)).1 =
      .errorView "Failed to fetch credits.") :=
  ⟨⟨rfl, rfl⟩,
   (fetchMovieDetail_http_error_spec "603" initialDetailState
      ⟨true, sampleDetail⟩ ⟨false, sampleCredits⟩).2 rfl rfl⟩

/-- C2: whenever both detail responses are successful, the fetch stores the
parsed movie body and the parsed credits body exactly, clears loading, leaves
the error unset, and the screen renders the full detail view (Ready). -/
theorem fetchMovieDetail_success_spec (id : String) (s : DetailState)
    (mRes : HttpResponse MovieDetail) (cRes : HttpResponse Credits)
    (hm : mRes.ok = true) (hc : cRes.ok = true) :
    (fetchMovieDetail id s (.responses mRes cRes)).1 =
      { movie := some mRes.body, credits := some cRes.body, loading := false,
        error := none } ∧
    renderDetail (fetchMovieDetail id s (.responses mRes cRes)).1 =
      .detailView mRes.body (some cRes.body) := by
  simp [fetchMovieDetail, renderDetail, hm, hc]

/-- Witness for C2: a fresh mount for id 603 where both responses succeed
reaches Ready with exactly the two bodies stored. -/
theorem fetchMovieDetail_success_spec_witness :
    (fetchMovieDetail "603" initialDetailState
        (.responses ⟨true, sampleDetail⟩ ⟨true, sampleCredits⟩)).1 =
      { movie := some sampleDetail, credits := some sampleCredits,
        loading := false, error := none } ∧
    renderDetail (fetchMovieDetail "603" initialDetailState
        (.responses ⟨true, sampleDetail⟩ ⟨true, sampleCredits⟩)).1 =
      .detailView sampleDetail (some sampleCredits) :=
  fetchMovieDetail_success_spec "603" initialDetailState
    ⟨true, sampleDetail⟩ ⟨true, sampleCredits⟩ rfl rfl

/-- C6: re-triggering the detail flow for an identifier re-issues both
requests and, when the new responses succeed, replaces the stored movie and
credits with the new bodies — the outcome is the same whatever state (in
particular, whatever previously fetched data) the screen already held, so
nothing is cached or reused. -/
theorem detailEffect_refetch_replaces (id : String) (s : DetailState)
    (mRes : HttpResponse MovieDetail) (cRes : HttpResponse Credits)
    (hid : id ≠ "") (hm : mRes.ok = true) (hc : cRes.ok = true) :
    detailEffect id s (.responses mRes cRes) =
      ({ movie := some mRes.body, credits := some cRes.body, loading := false,
         error := none },
       [DetailRequest.movieById id, DetailRequest.creditsById id]) := by
  simp [detailEffect, fetchMovieDetail, hid, hm, hc]

/-- Witness for C6: after a prior success stored `sampleDetail` and
`sampleCredits`, a re-trigger for id 603 issues both requests again and
replaces the state with the new bodies. -/
theorem detailEffect_refetch_replaces_witness :
    (("603" : String) ≠ "") ∧
    detailEffect "603"
        { movie := some sampleDetail, credits := some sampleCredits,
          loading := false, error := none }
        (.responses ⟨true, sampleDetail2⟩ ⟨true, sampleCredits2⟩) =
      ({ movie := some sampleDetail2, credits := some sampleCredits2,
         loading := false, error := none },
       [DetailRequest.movieById "603", DetailRequest.creditsById "603"]) :=
  ⟨by decide,
   detailEffect_refetch_replaces "603"
     { movie := some sampleDetail, credits := some sampleCredits,
       loading := false, error := none }
     ⟨true, sampleDetail2⟩ ⟨true, sampleCredits2⟩ (by decide) rfl rfl⟩

/-- C4: the detail screen's render is a total function of its state matching
the four-state policy — spinner exactly when loading; the error view (with the
stored message) exactly when not loading and an error is set; blank exactly
when not loading, no error and no movie; the full detail view exactly when not
loading, no error and a movie is present — and every state renders as exactly
one of these four shapes. -/
theorem renderDetail_four_state (s : DetailState) :
    (renderDetail s = .spinner ↔ s.loading = true) ∧
    (∀ e, renderDetail s = .errorView e ↔
        s.loading = false ∧ s.error = some e) ∧
    (renderDetail s = .blank ↔
        s.loading = false ∧ s.error = none ∧ s.movie = none) ∧
    (∀ m, renderDetail s = .detailView m s.credits ↔
        s.loading = false ∧ s.error = none ∧ s.movie = some m) ∧
    (renderDetail s = .spinner ∨ (∃ e, renderDetail s = .errorView e) ∨
      renderDetail s = .blank ∨ ∃ m, renderDetail s = .detailView m s.credits) := by
  obtain ⟨m, c, l, e⟩ := s
  cases l <;> cases e <;> cases m <;> simp [renderDetail]

/-- Witness for C4: a loaded state with no error and a movie present renders
the full detail view. -/
theorem renderDetail_four_state_witness :
    renderDetail
        { movie := some sampleDetail, credits := some sampleCredits,
          loading := false, error := none } =
      .detailView sampleDetail (some sampleCredits) :=
  ((renderDetail_four_state
      { movie := some sampleDetail, credits := some sampleCredits,
        loading := false, error := none }).2.2.2.1 sampleDetail).mpr
    ⟨rfl, rfl, rfl⟩

/-- C9: a stored runtime of 0 renders as "N/A" (not "0 minutes"), and a
positive runtime n renders as "n minutes". -/
theorem runtimeText_spec (n : Nat) (h : 0 < n) :
    runtimeText 0 = "N/A" ∧ runtimeText 0 ≠ "0 minutes" ∧
    runtimeText n = toString n ++ " minutes" := by
  refine ⟨rfl, by decide, ?_⟩
  simp [runtimeText, Nat.pos_iff_ne_zero.mp h]

/-- Witness for C9 at runtime 136. -/
theorem runtimeText_spec_witness :
    0 < 136 ∧
    (runtimeText 0 = "N/A" ∧ runtimeText 0 ≠ "0 minutes" ∧
      runtimeText 136 = toString 136 ++ " minutes") ∧
    runtimeText 136 = "136 minutes" :=
  ⟨by decide, runtimeText_spec 136 (by decide), by decide⟩

/-- C10: in the Ready state the cast section shows at most the first 10 cast
entries in their original order (a prefix of the cast list), the whole section
is omitted when the cast list is empty, and a rating of exactly 0 renders as
"N/A" rather than "0/10". -/
theorem castSection_rating_spec (c : Credits) :
    (0 < c.cast.length →
      castSection (some c) = some (c.cast.take 10) ∧
      (c.cast.take 10).length ≤ 10 ∧
      ∃ rest, c.cast = c.cast.take 10 ++ rest) ∧
    (c.cast = [] → castSection (some c) = none) ∧
    ratingText 0 = "N/A" ∧ ratingText 0 ≠ "0/10" := by
  refine ⟨fun h => ⟨?_, ?_, c.cast.drop 10, (List.take_append_drop 10 c.cast).symm⟩,
    fun h => ?_, ?_, ?_⟩
  · simp [castSection, h]
  · simp [List.length_take]
  · simp [castSection, h]
  · rfl
  · decide

/-- Witness for C10: an 11-member cast renders exactly its first 10 members,
an empty cast renders no section, and the 0 rating renders "N/A". -/
theorem castSection_rating_spec_witness :
    0 < (Credits.mk (List.replicate 11 sampleCastMember)).cast.length ∧
    castSection (some (Credits.mk (List.replicate 11 sampleCastMember))) =
      some (List.replicate 10 sampleCastMember) ∧
    castSection (some (Credits.mk [])) = none ∧
    ratingText 0 = "N/A" :=
  ⟨by decide,
   ((castSection_rating_spec (Credits.mk (List.replicate 11 sampleCastMember))).1
      (by decide)).1,
   (castSection_rating_spec (Credits.mk [])).2.1 rfl,
   (castSection_rating_spec (Credits.mk [])).2.2.1⟩

end MovieApp
